import Mathlib

/-!
Shallow embedding of `src/app.py`, a Flask service with one endpoint
(`/order-book`) that validates a JSON request, downloads a PDF, pads it to
39 pages, uploads it to a stubbed S3, and submits an order to the Gelato
print API.

Modelling choices, each taken from the source:
* A PDF document is the list of its pages; a page is an abstract token
  (`Nat`).  File paths are kept only where the code observes them.
* `fitz.open()` with no argument creates a new empty PDF with zero pages,
  and `Document.insert_pdf(docsrc)` copies the inclusive page range
  `[from_page, to_page]` of `docsrc`; for a zero-page source the lookup of
  its first page raises (cannot find page 0 in page tree), so inserting a
  freshly opened empty document raises rather than appending pages.
* Outbound I/O (the `requests.get` download, `fitz.open`/`doc.save`
  touching the filesystem, and the `requests.post` to Gelato) is modelled
  by an oracle record `Env` giving the outcome of each call.
* Python exceptions that the code catches become `Option`/`none` results,
  matching the `except` branches; exceptions that no handler catches
  (the `IndexError` from `customer_name.split()[0]` on a whitespace-only
  name, raised outside every `try`) become `Except.error ()`.
* The randomly generated reference ids (`uuid.uuid4`) and the env-sourced
  `GELATO_PRODUCT_ID` appear in no claim and are left out of the payload
  record; every other payload field the code fixes is kept.
-/

/-- A PDF document, as the list of its pages. -/
abbrev Pdf := List Nat

/-- `fitz.open()` with no argument: a new empty PDF holding zero pages. -/
def fitzOpenEmpty : Pdf := []

/-- `doc.insert_pdf(src)`: PyMuPDF copies the inclusive page range
`[from_page, to_page]` of `src` into `doc`.  The defaults clamp both
endpoints to the page count of `src`; an inclusive range is never empty,
so for a zero-page `src` the merge looks up a page the empty document
does not have and raises (cannot find page 0 in page tree).  A non-empty
`src` has its pages appended. -/
def insertPdf (doc src : Pdf) : Except Unit Pdf :=
  if src.isEmpty then Except.error () else Except.ok (doc ++ src)

/-- The `while page_count < 39` loop of `ensure_correct_page_count`
(src/app.py lines 59-61).  Each iteration runs
`doc.insert_pdf(fitz.open())` and `page_count += 1`; an exception raised
by `insertPdf` aborts the loop.  The counter strictly increases, so the
loop runs at most `39 - page_count` iterations; that number is passed as
structural fuel, making the recursion fuel-exact. -/
def padLoop : Nat → Pdf → Nat → Except Unit (Pdf × Nat)
  | 0, doc, page_count => Except.ok (doc, page_count)
  | fuel + 1, doc, page_count =>
    if page_count < 39 then
      match insertPdf doc fitzOpenEmpty with
      | Except.error e => Except.error e
      | Except.ok doc2 => padLoop fuel doc2 (page_count + 1)
    else Except.ok (doc, page_count)

/-- `ensure_correct_page_count(pdf_path, output_path)` (src/app.py lines
44-72).  `openOk` is whether `fitz.open(pdf_path)` succeeds and `saveOk`
whether `doc.save(output_path)` succeeds; any exception — including the
one `insert_pdf` raises inside the loop whenever the source has fewer
than 39 pages — is caught at line 70 and the function returns
`(None, None)`, here `none`.  On success the result is the saved document
(the pages written to `output_path`) paired with the returned
`page_count`. -/
def ensure_correct_page_count (openOk saveOk : Bool) (doc : Pdf) : Option (Pdf × Nat) :=
  if openOk then
    match padLoop (39 - doc.length) doc doc.length with
    | Except.error _ => none
    | Except.ok r => if saveOk then some r else none
  else none

/-- `upload_binary(file_path, s3_key, file_type)` (src/app.py lines 75-79):
a pure stub returning the fixed base joined with the key. -/
def upload_binary (file_path s3_key file_type : String) : String :=
  "https://mock-s3-bucket.com/" ++ s3_key

/-- The JSON request body: an association list from field name to value. -/
abbrev Dict := List (String × String)

/-- Python `data[k]` presence and first-match lookup. -/
def lookupField (data : Dict) (k : String) : Option String :=
  match data with
  | [] => none
  | (k2, v) :: rest => if k2 = k then some v else lookupField rest k

/-- Python `data[k]`: a missing key raises `KeyError`, here `Except.error`. -/
def dictGet (data : Dict) (k : String) : Except Unit String :=
  match lookupField data k with
  | some v => Except.ok v
  | none => Except.error ()

/-- The fixed `required_fields` list of the handler (src/app.py line 134). -/
def requiredFields : List String :=
  ["user_id", "pdf_url", "customer_name", "address", "city", "country", "postal_code", "email"]

/-- The validation loop (src/app.py lines 135-137): the first field of
`requiredFields` that is not a key of the body, if any. -/
def firstMissingField (data : Dict) : Option String :=
  requiredFields.find? (fun f => (lookupField data f).isNone)

/-- Python `str.split()` with no separator, on the character list of the
string: split on runs of whitespace, discarding empty pieces.  `acc` holds
the characters of the current word, reversed. -/
def splitWSAux : List Char → List Char → List (List Char)
  | [], acc => if acc.isEmpty then [] else [acc.reverse]
  | c :: cs, acc =>
    if c.isWhitespace then
      if acc.isEmpty then splitWSAux cs [] else acc.reverse :: splitWSAux cs []
    else splitWSAux cs (c :: acc)

/-- Python `str.split()` with no separator. -/
def splitWS (s : List Char) : List (List Char) := splitWSAux s []

/-- The `shippingAddress` object of the Gelato payload (src/app.py lines
101-111). -/
structure ShippingAddress where
  companyName : String
  firstName : List Char
  lastName : List Char
  addressLine1 : String
  city : String
  state : String
  postCode : String
  country : String
  email : String
deriving DecidableEq, Repr

/-- The Gelato order payload fields the code fixes (src/app.py lines
86-112), minus the random reference ids and the env-sourced product id. -/
structure OrderPayload where
  currency : String
  fileUrl : String
  quantity : Nat
  pageCount : Nat
  shipmentMethodUid : String
  shippingAddress : ShippingAddress
deriving DecidableEq, Repr

/-- The parsed JSON body of a Gelato response; `id` is `some` exactly when
the parsed object carries an order identifier (`order_data` with a usable
`id` key). -/
structure GelatoBody where
  id : Option String
deriving DecidableEq, Repr

/-- The outcome of `requests.post` to Gelato when it returns at all:
a status code and the body. -/
structure GelatoResp where
  status : Nat
  body : GelatoBody
deriving DecidableEq, Repr

/-- Building the payload dict of `order_book_with_gelato` (src/app.py lines
86-112).  The dict accesses `customer_data[...]` raise `KeyError` on a
missing key, and `customer_data["customer_name"].split()[0]` raises
`IndexError` when the split is empty; both happen outside every `try`, so
both are `Except.error ()`. -/
def buildPayload (pdf_url : String) (customer_data : Dict) : Except Unit OrderPayload := do
  let customer_name ← dictGet customer_data "customer_name"
  let address ← dictGet customer_data "address"
  let city ← dictGet customer_data "city"
  let postal_code ← dictGet customer_data "postal_code"
  let country ← dictGet customer_data "country"
  let email ← dictGet customer_data "email"
  match splitWS customer_name.toList with
  | [] => Except.error ()
  | w :: ws =>
    Except.ok
      { currency := "USD"
        fileUrl := pdf_url
        quantity := 1
        pageCount := 39
        shipmentMethodUid := "standard"
        shippingAddress :=
          { companyName := customer_name
            firstName := w
            lastName := (w :: ws).getLast (List.cons_ne_nil w ws)
            addressLine1 := address
            city := city
            state := ""
            postCode := postal_code
            country := country
            email := email } }

/-- `order_book_with_gelato(pdf_url, customer_data)` (src/app.py lines
82-125).  `postResult` is the outcome of `requests.post`: `none` when the
call raises (transport error or timeout).  Inside the `try`, a non-201
status returns `None`; on 201 the parsed body is returned after the
success print reads `order_data["id"]`, whose `KeyError` on a body without
an id is caught by the same `except` and also yields `None`. -/
def order_book_with_gelato (postResult : Option GelatoResp) (pdf_url : String)
    (customer_data : Dict) : Except Unit (Option GelatoBody) := do
  let _payload ← buildPayload pdf_url customer_data
  Except.ok
    (match postResult with
     | none => none
     | some response =>
       if response.status = 201 then
         match response.body.id with
         | some _ => some response.body
         | none => none
       else none)

/-- Outcomes of the outbound calls a request makes, in program order:
`download` is the result of `download_pdf` (the pages of the fetched file,
`none` on a non-200 status or transport error, src/app.py lines 26-41);
`openOk` and `saveOk` the filesystem outcomes inside the normalizer; and
`post` the outcome of the Gelato `requests.post`. -/
structure Env where
  download : Option Pdf
  openOk : Bool
  saveOk : Bool
  post : Option GelatoResp

/-- The steps of the pipeline, logged when the handler invokes them. -/
inductive Step
  | download
  | normalize
  | publish
  | submit
deriving DecidableEq, Repr

/-- A response the handler returns: `jsonify(body), status` (status 200
when the code gives none). -/
inductive Response
  | json (status : Nat) (body : List (String × String))
deriving DecidableEq, Repr

/-- The `/order-book` handler `order_book` (src/app.py lines 128-166),
returning the response (`Except.error ()` when an exception escapes the
handler, so no JSON response is produced) together with the list of
pipeline steps it invoked. -/
def order_book (env : Env) (data : Dict) : Except Unit Response × List Step :=
  match firstMissingField data with
  | some f => (Except.ok (Response.json 400 [("error", "Missing field: " ++ f)]), [])
  | none =>
    match env.download with
    | none =>
      (Except.ok (Response.json 500 [("error", "Failed to download PDF")]), [Step.download])
    | some pdf =>
      match ensure_correct_page_count env.openOk env.saveOk pdf with
      | none =>
        (Except.ok (Response.json 500 [("error", "Failed to generate a correctly formatted PDF")]),
         [Step.download, Step.normalize])
      | some (_corrected, actual_page_count) =>
        if actual_page_count ≠ 39 then
          (Except.ok
             (Response.json 500 [("error", "Failed to generate a correctly formatted PDF")]),
           [Step.download, Step.normalize])
        else
          match lookupField data "user_id" with
          | none =>
            (Except.ok (Response.json 500 [("error", "Failed to upload PDF")]),
             [Step.download, Step.normalize])
          | some uid =>
            let gelato_pdf_url :=
              upload_binary "./processed_pdfs/gelato_ready.pdf"
                (uid ++ "/pdf/gelato_ready.pdf") "application/pdf"
            match order_book_with_gelato env.post gelato_pdf_url data with
            | Except.error e =>
              (Except.error e, [Step.download, Step.normalize, Step.publish, Step.submit])
            | Except.ok none =>
              (Except.ok (Response.json 500 [("error", "Failed to place book order")]),
               [Step.download, Step.normalize, Step.publish, Step.submit])
            | Except.ok (some order) =>
              (Except.ok
                 (Response.json 200
                   [("message", "Book order created successfully!"),
                    ("order_id", order.id.getD ""),
                    ("gelato_pdf_url", gelato_pdf_url)]),
               [Step.download, Step.normalize, Step.publish, Step.submit])

/-! ## Basic lemmas about the normalizer -/

lemma insertPdf_empty (doc : Pdf) : insertPdf doc fitzOpenEmpty = Except.error () := by
  simp [insertPdf, fitzOpenEmpty]

lemma ensure_correct_page_count_ge {doc : Pdf} (h : 39 ≤ doc.length) :
    ensure_correct_page_count true true doc = some (doc, doc.length) := by
  have hk : 39 - doc.length = 0 := by omega
  unfold ensure_correct_page_count
  rw [hk]
  simp [padLoop]

lemma ensure_correct_page_count_short {doc : Pdf} (openOk saveOk : Bool)
    (h : doc.length < 39) :
    ensure_correct_page_count openOk saveOk doc = none := by
  obtain ⟨k, hk⟩ : ∃ k, 39 - doc.length = k + 1 := ⟨38 - doc.length, by omega⟩
  unfold ensure_correct_page_count
  rw [hk]
  simp [padLoop, h, insertPdf_empty]

/-! ## Lemmas about validation -/

lemma find?_append_first {α : Type} (p : α → Bool) (l₁ l₂ : List α) (x : α)
    (h₁ : ∀ y ∈ l₁, p y = false) (h₂ : p x = true) :
    (l₁ ++ x :: l₂).find? p = some x := by
  induction l₁ with
  | nil => simp [List.find?, h₂]
  | cons a l ih =>
    have ha := h₁ a (by simp)
    rw [List.cons_append, List.find?_cons_of_neg _ (by simp [ha])]
    exact ih (fun y hy => h₁ y (by simp [hy]))

lemma present_of_firstMissing_none {data : Dict} (h : firstMissingField data = none)
    {f : String} (hf : f ∈ requiredFields) : ∃ v, lookupField data f = some v := by
  have hall := List.find?_eq_none.mp h f hf
  cases hl : lookupField data f with
  | none => exact absurd (by simp [hl]) hall
  | some v => exact ⟨v, rfl⟩

/-! ## Lemmas about the payload and the submitter -/

lemma except_ok_bind {ε α β : Type} (a : α) (f : α → Except ε β) :
    (Except.ok a : Except ε α) >>= f = f a := rfl

lemma buildPayload_ok {data : Dict} {customer_name : String} {w : List Char}
    {ws : List (List Char)} (pdf_url : String)
    (hname : lookupField data "customer_name" = some customer_name)
    (haddr : (lookupField data "address").isSome)
    (hcity : (lookupField data "city").isSome)
    (hpostal : (lookupField data "postal_code").isSome)
    (hcountry : (lookupField data "country").isSome)
    (hemail : (lookupField data "email").isSome)
    (hsplit : splitWS customer_name.toList = w :: ws) :
    ∃ p, buildPayload pdf_url data = Except.ok p ∧
      p.shippingAddress.firstName = w ∧
      p.shippingAddress.lastName = (w :: ws).getLast (List.cons_ne_nil w ws) := by
  obtain ⟨va, ha⟩ := Option.isSome_iff_exists.mp haddr
  obtain ⟨vc, hc⟩ := Option.isSome_iff_exists.mp hcity
  obtain ⟨vp, hp⟩ := Option.isSome_iff_exists.mp hpostal
  obtain ⟨vco, hco⟩ := Option.isSome_iff_exists.mp hcountry
  obtain ⟨ve, he⟩ := Option.isSome_iff_exists.mp hemail
  simp only [buildPayload, dictGet, hname, ha, hc, hp, hco, he, except_ok_bind, hsplit]
  exact ⟨_, rfl, rfl, rfl⟩

lemma buildPayload_error {data : Dict} {customer_name : String} (pdf_url : String)
    (hname : lookupField data "customer_name" = some customer_name)
    (haddr : (lookupField data "address").isSome)
    (hcity : (lookupField data "city").isSome)
    (hpostal : (lookupField data "postal_code").isSome)
    (hcountry : (lookupField data "country").isSome)
    (hemail : (lookupField data "email").isSome)
    (hsplit : splitWS customer_name.toList = []) :
    buildPayload pdf_url data = Except.error () := by
  obtain ⟨va, ha⟩ := Option.isSome_iff_exists.mp haddr
  obtain ⟨vc, hc⟩ := Option.isSome_iff_exists.mp hcity
  obtain ⟨vp, hp⟩ := Option.isSome_iff_exists.mp hpostal
  obtain ⟨vco, hco⟩ := Option.isSome_iff_exists.mp hcountry
  obtain ⟨ve, he⟩ := Option.isSome_iff_exists.mp hemail
  simp only [buildPayload, dictGet, hname, ha, hc, hp, hco, he, except_ok_bind, hsplit]

lemma order_book_with_gelato_of_payload_ok {pdf_url : String} {data : Dict} {p : OrderPayload}
    (postResult : Option GelatoResp) (hp : buildPayload pdf_url data = Except.ok p) :
    order_book_with_gelato postResult pdf_url data =
      Except.ok
        (match postResult with
         | none => none
         | some response =>
           if response.status = 201 then
             match response.body.id with
             | some _ => some response.body
             | none => none
           else none) := by
  simp only [order_book_with_gelato, hp, except_ok_bind]

lemma order_book_with_gelato_of_payload_error {pdf_url : String} {data : Dict}
    (postResult : Option GelatoResp) (hp : buildPayload pdf_url data = Except.error ()) :
    order_book_with_gelato postResult pdf_url data = Except.error () := by
  simp only [order_book_with_gelato, hp]
  rfl

/-! ## The handler past a passing validation, download and normalization -/

lemma order_book_after_normalize {env : Env} {data : Dict} {pdf : Pdf} {uid : String}
    (hval : firstMissingField data = none)
    (hdl : env.download = some pdf)
    (ho : env.openOk = true) (hs : env.saveOk = true)
    (hlen : pdf.length = 39)
    (huid : lookupField data "user_id" = some uid) :
    order_book env data =
      (match order_book_with_gelato env.post
          (upload_binary "./processed_pdfs/gelato_ready.pdf" (uid ++ "/pdf/gelato_ready.pdf")
            "application/pdf") data with
       | Except.error e =>
         (Except.error e, [Step.download, Step.normalize, Step.publish, Step.submit])
       | Except.ok none =>
         (Except.ok (Response.json 500 [("error", "Failed to place book order")]),
          [Step.download, Step.normalize, Step.publish, Step.submit])
       | Except.ok (some order) =>
         (Except.ok
            (Response.json 200
              [("message", "Book order created successfully!"),
               ("order_id", order.id.getD ""),
               ("gelato_pdf_url",
                upload_binary "./processed_pdfs/gelato_ready.pdf"
                  (uid ++ "/pdf/gelato_ready.pdf") "application/pdf")]),
          [Step.download, Step.normalize, Step.publish, Step.submit])) := by
  have hens : ensure_correct_page_count env.openOk env.saveOk pdf = some (pdf, 39) := by
    rw [ho, hs, ensure_correct_page_count_ge (by omega), hlen]
  simp only [order_book, hval, hdl, hens, huid, ne_eq, not_true_eq_false, if_false]

/-! ## Concrete request bodies for the witnesses -/

/-- A complete request body with every required field present. -/
def sampleRequest : Dict :=
  [("user_id", "u1"), ("pdf_url", "http://example.com/book.pdf"),
   ("customer_name", "Ann Lee"), ("address", "1 Road"), ("city", "Oslo"),
   ("country", "NO"), ("postal_code", "0001"), ("email", "ann@example.com")]

/-- The same body with a single-token customer name. -/
def samplePrinceRequest : Dict :=
  [("user_id", "u1"), ("pdf_url", "http://example.com/book.pdf"),
   ("customer_name", "Prince"), ("address", "1 Road"), ("city", "Oslo"),
   ("country", "NO"), ("postal_code", "0001"), ("email", "ann@example.com")]

/-- The same body with a whitespace-only customer name. -/
def sampleBlankNameRequest : Dict :=
  [("user_id", "u1"), ("pdf_url", "http://example.com/book.pdf"),
   ("customer_name", " "), ("address", "1 Road"), ("city", "Oslo"),
   ("country", "NO"), ("postal_code", "0001"), ("email", "ann@example.com")]

/-! ## Claims -/

/-- Claim C1 (code bug witnessed at a concrete failing input): the claim
says every source of at most 39 pages normalizes successfully to a saved
output of exactly 39 pages, and the docstring of
`ensure_correct_page_count` says the same.  In the code each loop
iteration runs `doc.insert_pdf(fitz.open())`, and PyMuPDF raises on the
zero-page source, so for every input with fewer than 39 pages the first
iteration raises, the `except` at line 70 turns it into `(None, None)`,
and the handler answers the normalization 500: on a one-page source the
normalizer fails instead of producing a 39-page output. -/
theorem c1_normalizer_fails_below_target :
    ensure_correct_page_count true true [0] = none ∧
    order_book { download := some [0], openOk := true, saveOk := true, post := none }
        sampleRequest =
      (Except.ok (Response.json 500 [("error", "Failed to generate a correctly formatted PDF")]),
       [Step.download, Step.normalize]) := by
  constructor
  · rfl
  · rfl

/-- Claim C2: on a source with more than 39 pages the loop body never
runs, so the saved output equals the input (no pages added or removed)
and the returned count is the original count; the handler then sees a
count different from 39 and answers 500 without publishing or
submitting. -/
theorem c2_over_target_rejected (env : Env) (data : Dict) (doc : Pdf)
    (h : 39 < doc.length)
    (hval : firstMissingField data = none)
    (hdl : env.download = some doc)
    (ho : env.openOk = true) (hs : env.saveOk = true) :
    ensure_correct_page_count true true doc = some (doc, doc.length) ∧
    order_book env data =
      (Except.ok (Response.json 500 [("error", "Failed to generate a correctly formatted PDF")]),
       [Step.download, Step.normalize]) := by
  have hne : doc.length ≠ 39 := by omega
  have hens : ensure_correct_page_count true true doc = some (doc, doc.length) :=
    ensure_correct_page_count_ge (by omega)
  refine ⟨hens, ?_⟩
  have hens2 : ensure_correct_page_count env.openOk env.saveOk doc = some (doc, doc.length) := by
    rw [ho, hs]
    exact hens
  simp only [order_book, hval, hdl, hens2]
  simp [hne]

/-- Claim C3: when a required field is missing, the handler returns 400
naming the first missing field in the fixed order of `requiredFields`,
and invokes no pipeline step.  `f` is that first missing field:
`requiredFields` splits as `l₁ ++ f :: l₂` with every field of `l₁`
present and `f` absent. -/
theorem c3_validation_first_missing (env : Env) (data : Dict) (l₁ l₂ : List String) (f : String)
    (hord : requiredFields = l₁ ++ f :: l₂)
    (hpre : ∀ g ∈ l₁, (lookupField data g).isSome)
    (hmiss : lookupField data f = none) :
    order_book env data =
      (Except.ok (Response.json 400 [("error", "Missing field: " ++ f)]), []) := by
  have hfind : firstMissingField data = some f := by
    unfold firstMissingField
    rw [hord]
    apply find?_append_first
    · intro y hy
      obtain ⟨v, hv⟩ := Option.isSome_iff_exists.mp (hpre y hy)
      simp [hv]
    · simp [hmiss]
  simp only [order_book, hfind]

/-- Claim C4: a failed download yields 500 with the fetch-specific
message, and only the download step was invoked: the normalizer, the
publisher and the order submitter never run. -/
theorem c4_download_failure_short_circuits (env : Env) (data : Dict)
    (hval : firstMissingField data = none)
    (hdl : env.download = none) :
    order_book env data =
      (Except.ok (Response.json 500 [("error", "Failed to download PDF")]), [Step.download]) := by
  simp only [order_book, hval, hdl]

/-- Claim C5: a customer name whose whitespace split has exactly one
token builds the payload without raising, and both `firstName`
(`split()[0]`) and `lastName` (`split()[-1]`) of the outbound shipping
address equal that token; the submitter call itself raises nothing. -/
theorem c5_single_token_name (postResult : Option GelatoResp) (pdf_url : String) (data : Dict)
    (customer_name : String) (t : List Char)
    (hname : lookupField data "customer_name" = some customer_name)
    (haddr : (lookupField data "address").isSome)
    (hcity : (lookupField data "city").isSome)
    (hpostal : (lookupField data "postal_code").isSome)
    (hcountry : (lookupField data "country").isSome)
    (hemail : (lookupField data "email").isSome)
    (hsplit : splitWS customer_name.toList = [t]) :
    ∃ p, buildPayload pdf_url data = Except.ok p ∧
      p.shippingAddress.firstName = t ∧ p.shippingAddress.lastName = t ∧
      order_book_with_gelato postResult pdf_url data ≠ Except.error () := by
  obtain ⟨p, hp, hfst, hlst⟩ :=
    buildPayload_ok pdf_url hname haddr hcity hpostal hcountry hemail hsplit
  refine ⟨p, hp, hfst, ?_, ?_⟩
  · rw [hlst]
    rfl
  · rw [order_book_with_gelato_of_payload_ok postResult hp]
    simp

/-- Claim C6: with the payload built, a 201 response whose parsed body
carries an order identifier is returned as the success value (the parsed
body, whose identifier the endpoint surfaces); a transport error or any
other status yields the failure signal `none`; and the endpoint converts
a `none` submission into a 500 with message Failed to place book
order. -/
theorem c6_submit_result :
    (∀ (r : GelatoResp) (oid pdf_url : String) (data : Dict) (p : OrderPayload),
        buildPayload pdf_url data = Except.ok p → r.status = 201 → r.body.id = some oid →
        order_book_with_gelato (some r) pdf_url data = Except.ok (some r.body)) ∧
    (∀ (postResult : Option GelatoResp) (pdf_url : String) (data : Dict) (p : OrderPayload),
        buildPayload pdf_url data = Except.ok p →
        (postResult = none ∨ ∀ r, postResult = some r → r.status ≠ 201) →
        order_book_with_gelato postResult pdf_url data = Except.ok none) ∧
    (∀ (env : Env) (data : Dict) (pdf : Pdf) (uid : String),
        firstMissingField data = none → env.download = some pdf →
        env.openOk = true → env.saveOk = true → pdf.length = 39 →
        lookupField data "user_id" = some uid →
        order_book_with_gelato env.post
          (upload_binary "./processed_pdfs/gelato_ready.pdf" (uid ++ "/pdf/gelato_ready.pdf")
            "application/pdf") data = Except.ok none →
        order_book env data =
          (Except.ok (Response.json 500 [("error", "Failed to place book order")]),
           [Step.download, Step.normalize, Step.publish, Step.submit])) := by
  refine ⟨?_, ?_, ?_⟩
  · intro r oid pdf_url data p hp h201 hid
    rw [order_book_with_gelato_of_payload_ok (some r) hp]
    simp [h201, hid]
  · intro postResult pdf_url data p hp hfail
    rw [order_book_with_gelato_of_payload_ok postResult hp]
    rcases hfail with h | h
    · simp [h]
    · cases postResult with
      | none => rfl
      | some r => simp [h r rfl]
  · intro env data pdf uid hval hdl ho hs hlen huid hsubmit
    rw [order_book_after_normalize hval hdl ho hs hlen huid, hsubmit]

/-- Claim C7: when validation, download, normalization, publish and
submission all succeed, the handler answers 200 whose JSON body has
exactly the keys message, order_id (the identifier of the parsed Gelato
body) and gelato_pdf_url (the constructed asset URL).  Normalization
succeeds with the required count exactly when the downloaded document
already has 39 pages (on fewer the padding loop raises and the function
returns `none`; on more the handler rejects the count). -/
theorem c7_success_response (env : Env) (data : Dict) (pdf : Pdf)
    (uid customer_name oid : String) (w : List Char) (ws : List (List Char))
    (hval : firstMissingField data = none)
    (huid : lookupField data "user_id" = some uid)
    (hname : lookupField data "customer_name" = some customer_name)
    (hsplit : splitWS customer_name.toList = w :: ws)
    (hdl : env.download = some pdf)
    (ho : env.openOk = true) (hs : env.saveOk = true)
    (hlen : pdf.length = 39)
    (hpost : env.post = some { status := 201, body := { id := some oid } }) :
    order_book env data =
      (Except.ok
         (Response.json 200
           [("message", "Book order created successfully!"),
            ("order_id", oid),
            ("gelato_pdf_url",
             "https://mock-s3-bucket.com/" ++ (uid ++ "/pdf/gelato_ready.pdf"))]),
       [Step.download, Step.normalize, Step.publish, Step.submit]) := by
  have hp : ∀ f, f ∈ requiredFields → (lookupField data f).isSome := fun f hf =>
    Option.isSome_iff_exists.mpr (present_of_firstMissing_none hval hf)
  obtain ⟨p, hpayload, _, _⟩ :=
    buildPayload_ok
      (upload_binary "./processed_pdfs/gelato_ready.pdf" (uid ++ "/pdf/gelato_ready.pdf")
        "application/pdf")
      hname (hp _ (by decide)) (hp _ (by decide)) (hp _ (by decide)) (hp _ (by decide))
      (hp _ (by decide)) hsplit
  rw [order_book_after_normalize hval hdl ho hs hlen huid,
      order_book_with_gelato_of_payload_ok env.post hpayload, hpost]
  simp [upload_binary]

/-- Claim C8: a document that already has exactly 39 pages passes the
normalizer untouched: the call succeeds, the saved output is the very
same document, and the reported count is 39, so re-running the
normalizer reproduces the same 39-page output. -/
theorem c8_normalize_idempotent_at_39 (doc : Pdf) (h : doc.length = 39) :
    ensure_correct_page_count true true doc = some (doc, 39) := by
  have hk : ensure_correct_page_count true true doc = some (doc, doc.length) :=
    ensure_correct_page_count_ge (by omega)
  rwa [h] at hk

/-- Claim C10: a request whose customer_name is present but empty or
whitespace-only passes validation (the key exists), but once the earlier
steps succeed — which requires the downloaded document to have exactly 39
pages, since the normalizer fails on fewer and the handler rejects more —
the payload construction raises an uncaught IndexError (`split()` of the
name is empty and `[0]` is taken outside every `try`), so the handler
produces no JSON error response at all. -/
theorem c10_blank_name_uncaught (env : Env) (data : Dict) (pdf : Pdf)
    (customer_name uid : String)
    (hval : firstMissingField data = none)
    (huid : lookupField data "user_id" = some uid)
    (hname : lookupField data "customer_name" = some customer_name)
    (hblank : splitWS customer_name.toList = [])
    (hdl : env.download = some pdf)
    (ho : env.openOk = true) (hs : env.saveOk = true)
    (hlen : pdf.length = 39) :
    order_book env data =
      (Except.error (), [Step.download, Step.normalize, Step.publish, Step.submit]) := by
  have hp : ∀ f, f ∈ requiredFields → (lookupField data f).isSome := fun f hf =>
    Option.isSome_iff_exists.mpr (present_of_firstMissing_none hval hf)
  have hpay :=
    buildPayload_error
      (upload_binary "./processed_pdfs/gelato_ready.pdf" (uid ++ "/pdf/gelato_ready.pdf")
        "application/pdf")
      hname (hp _ (by decide)) (hp _ (by decide)) (hp _ (by decide)) (hp _ (by decide))
      (hp _ (by decide)) hblank
  rw [order_book_after_normalize hval hdl ho hs hlen huid,
      order_book_with_gelato_of_payload_error env.post hpay]

/-- Claim C9: the publish stub is a total function returning the fixed
base joined with the key, and consequently the handler can never produce
the 500 response with message Failed to upload PDF: the only exception
the surrounding `try` could see is a `KeyError` on `data` missing
user_id, which validation has already ruled out. -/
theorem c9_upload_stub_total :
    (∀ file_path s3_key file_type : String,
        upload_binary file_path s3_key file_type = "https://mock-s3-bucket.com/" ++ s3_key) ∧
    (∀ (env : Env) (data : Dict),
        (order_book env data).1 ≠
          Except.ok (Response.json 500 [("error", "Failed to upload PDF")])) := by
  refine ⟨fun _ _ _ => rfl, fun env data h => ?_⟩
  unfold order_book at h
  split at h
  · simp at h
  next hval =>
    split at h
    · simp at h
    next pdf hdl =>
      split at h
      · simp at h
      next corrected actual hec =>
        split at h
        · simp at h
        next hpc =>
          split at h
          next huid =>
            obtain ⟨v, hv⟩ := present_of_firstMissing_none hval (f := "user_id") (by decide)
            rw [hv] at huid
            simp at huid
          next uid huid =>
            dsimp only [] at h
            split at h
            · simp at h
            · simp at h
            · simp at h

/-! ## Witnesses: each claim theorem applied at a concrete input -/

/-- Witness for C2 on a concrete 40-page document and a complete request. -/
theorem c2_over_target_rejected_witness :
    ensure_correct_page_count true true (List.replicate 40 0) = some (List.replicate 40 0, 40) ∧
    order_book
        { download := some (List.replicate 40 0), openOk := true, saveOk := true, post := none }
        sampleRequest =
      (Except.ok (Response.json 500 [("error", "Failed to generate a correctly formatted PDF")]),
       [Step.download, Step.normalize]) :=
  c2_over_target_rejected
    { download := some (List.replicate 40 0), openOk := true, saveOk := true, post := none }
    sampleRequest (List.replicate 40 0) (by decide) (by decide) rfl rfl rfl

/-- Witness for C3 on a request that has user_id but lacks pdf_url. -/
theorem c3_validation_first_missing_witness :
    order_book { download := none, openOk := true, saveOk := true, post := none }
        [("user_id", "u1")] =
      (Except.ok (Response.json 400 [("error", "Missing field: " ++ "pdf_url")]), []) :=
  c3_validation_first_missing
    { download := none, openOk := true, saveOk := true, post := none }
    [("user_id", "u1")] ["user_id"]
    ["customer_name", "address", "city", "country", "postal_code", "email"] "pdf_url"
    (by decide) (by decide) (by decide)

/-- Witness for C4 on a complete request whose download fails. -/
theorem c4_download_failure_short_circuits_witness :
    order_book { download := none, openOk := true, saveOk := true, post := none }
        sampleRequest =
      (Except.ok (Response.json 500 [("error", "Failed to download PDF")]), [Step.download]) :=
  c4_download_failure_short_circuits
    { download := none, openOk := true, saveOk := true, post := none }
    sampleRequest (by decide) rfl

/-- Witness for C5 on the single-token customer name Prince. -/
theorem c5_single_token_name_witness :
    ∃ p, buildPayload "https://mock-s3-bucket.com/u1/pdf/gelato_ready.pdf" samplePrinceRequest =
        Except.ok p ∧
      p.shippingAddress.firstName = "Prince".toList ∧
      p.shippingAddress.lastName = "Prince".toList ∧
      order_book_with_gelato none "https://mock-s3-bucket.com/u1/pdf/gelato_ready.pdf"
          samplePrinceRequest ≠ Except.error () :=
  c5_single_token_name none "https://mock-s3-bucket.com/u1/pdf/gelato_ready.pdf"
    samplePrinceRequest "Prince" "Prince".toList (by decide) (by decide) (by decide) (by decide)
    (by decide) (by decide) (by decide)

/-- Witness for C6: on a complete request with a failed submission the
endpoint answers 500 with the order-failure message. -/
theorem c6_submit_result_witness :
    order_book
        { download := some (List.replicate 39 0), openOk := true, saveOk := true, post := none }
        sampleRequest =
      (Except.ok (Response.json 500 [("error", "Failed to place book order")]),
       [Step.download, Step.normalize, Step.publish, Step.submit]) :=
  c6_submit_result.2.2
    { download := some (List.replicate 39 0), openOk := true, saveOk := true, post := none }
    sampleRequest (List.replicate 39 0) "u1" (by decide) rfl rfl rfl (by decide) (by decide)
    (by rfl)

/-- Witness for C7 on a fully successful concrete run. -/
theorem c7_success_response_witness :
    order_book
        { download := some (List.replicate 39 0), openOk := true, saveOk := true,
          post := some { status := 201, body := { id := some "ord-1" } } }
        sampleRequest =
      (Except.ok
         (Response.json 200
           [("message", "Book order created successfully!"),
            ("order_id", "ord-1"),
            ("gelato_pdf_url",
             "https://mock-s3-bucket.com/" ++ ("u1" ++ "/pdf/gelato_ready.pdf"))]),
       [Step.download, Step.normalize, Step.publish, Step.submit]) :=
  c7_success_response
    { download := some (List.replicate 39 0), openOk := true, saveOk := true,
      post := some { status := 201, body := { id := some "ord-1" } } }
    sampleRequest (List.replicate 39 0) "u1" "Ann Lee" "ord-1" "Ann".toList ["Lee".toList]
    (by decide) (by decide) (by decide) (by decide) rfl rfl rfl (by decide) rfl

/-- Witness for C8 on a concrete 39-page document. -/
theorem c8_normalize_idempotent_at_39_witness :
    ensure_correct_page_count true true (List.replicate 39 0) =
      some (List.replicate 39 0, 39) :=
  c8_normalize_idempotent_at_39 (List.replicate 39 0) (by decide)

/-- Witness for C9: the stub at concrete arguments. -/
theorem c9_upload_stub_total_witness :
    upload_binary "./processed_pdfs/gelato_ready.pdf" "u1/pdf/gelato_ready.pdf"
        "application/pdf" =
      "https://mock-s3-bucket.com/" ++ "u1/pdf/gelato_ready.pdf" :=
  c9_upload_stub_total.1 "./processed_pdfs/gelato_ready.pdf" "u1/pdf/gelato_ready.pdf"
    "application/pdf"

/-- Witness for C10 on a concrete request whose customer_name is a single
space: the handler ends in an uncaught exception. -/
theorem c10_blank_name_uncaught_witness :
    order_book
        { download := some (List.replicate 39 0), openOk := true, saveOk := true, post := none }
        sampleBlankNameRequest =
      (Except.error (), [Step.download, Step.normalize, Step.publish, Step.submit]) :=
  c10_blank_name_uncaught
    { download := some (List.replicate 39 0), openOk := true, saveOk := true, post := none }
    sampleBlankNameRequest (List.replicate 39 0) " " "u1" (by decide) (by decide) (by decide)
    (by decide) rfl rfl rfl (by decide)
